import Mathlib

/-!
Shallow embedding of the VNF lifecycle orchestration plugin
(src/tacker/vm/plugin.py) and proofs about its lifecycle operations.

The plugin file is the single source file of the repository.  The database
mixin (vm_db.VNFMPluginDb), the constants modules and the driver classes are
collaborators outside src/; where the control flow of plugin.py calls into
them, those calls are modelled from the spec (each such definition carries a
doc comment starting with "Modelled from the spec:").  External driver
behaviour (infra driver, management driver, VIM resolution) is an oracle
environment: each backend call is a fixed outcome, either a value or a
raised exception.

State is passed explicitly: `St` holds the persisted record and the trace of
observable events (driver invocations, management hooks, monitor
subscription changes, continuation submissions).  Python exceptions are
`Except Exc`; a `try/except T` block matches on the exception constructor.
-/

/-- Lifecycle statuses of a VNF record (plugins.common.constants). -/
inductive Status where
  | PENDING_CREATE
  | ACTIVE
  | PENDING_UPDATE
  | PENDING_DELETE
  | PENDING_SCALE_IN
  | PENDING_SCALE_OUT
  | ERROR
  | DEAD
deriving DecidableEq, Repr

/-- Exceptions that flow through the plugin.  Constructors carry the message
where the code reads it back via six.text_type. -/
inductive Exc where
  | VNFCreateWaitFailed (msg : String)
  | MgmtDriverException (msg : String)
  | VnfPolicyTypeInvalid (ptype : String)
  | VnfPolicyActionInvalid (action : String)
  | VnfPolicyNotFound (policy : String)
  | VNFNotFound (vnf_id : String)
  | VNFInUse (vnf_id : String)
  | VimNotFound (msg : String)
  | TypeError (msg : String)
  | AttributeError (msg : String)
  | KeyError (msg : String)
  | OtherError (msg : String)
deriving DecidableEq, Repr

/-- The text of an exception, as six.text_type(e) produces it. -/
def Exc.text : Exc → String
  | .VNFCreateWaitFailed msg => msg
  | .MgmtDriverException msg => msg
  | .VnfPolicyTypeInvalid ptype => "policy type " ++ ptype ++ " is invalid"
  | .VnfPolicyActionInvalid action => "policy action " ++ action ++ " is invalid"
  | .VnfPolicyNotFound policy => "policy " ++ policy ++ " not found"
  | .VNFNotFound vnf_id => "VNF " ++ vnf_id ++ " not found"
  | .VNFInUse vnf_id => "VNF " ++ vnf_id ++ " is in use"
  | .VimNotFound msg => msg
  | .TypeError msg => msg
  | .AttributeError msg => msg
  | .KeyError msg => msg
  | .OtherError msg => msg

/-- Management-driver notification actions (vnfm.mgmt_drivers constants). -/
inductive MgmtAction where
  | CREATE_VNF
  | UPDATE_VNF
  | DELETE_VNF
deriving DecidableEq, Repr

/-- Tags for the continuations that plugin.py hands to spawn_n. -/
inductive ContTag where
  | createVnfWait
  | updateVnfWait
  | deleteVnfWait
  | scalePolicyWait
deriving DecidableEq, Repr

/-- Observable events of a run: backend invocations, management hooks,
monitor subscription changes and continuation submissions. -/
inductive Event where
  | infraCreate
  | infraCreateWait
  | infraUpdate
  | infraUpdateWait
  | infraDelete
  | infraDeleteWait
  | infraScale
  | infraScaleWait
  | mgmtCreatePre
  | mgmtCreatePost
  | mgmtUpdatePre
  | mgmtUpdatePost
  | mgmtDeletePre
  | mgmtDeletePost
  | mgmtCall (action : MgmtAction)
  | unsubscribeMonitor
  | subscribeMonitor
  | spawn (cont : ContTag)
deriving DecidableEq, Repr

/-- A yaml-ish attribute payload: either structured (a dict) or already in
the canonical string encoding (plugin.py lines 293-310, 359-367). -/
inductive YVal where
  | ydict (entries : List (String × String))
  | ystr (s : String)
deriving DecidableEq, Repr

/-- Python truthiness of an attribute payload: empty dict and empty string
are falsy. -/
def YVal.truthy : YVal → Bool
  | .ydict entries => !entries.isEmpty
  | .ystr s => s ≠ ""

/-- Concrete stand-in for yaml.safe_dump on a structured payload. -/
def yamlDump (entries : List (String × String)) : String :=
  entries.foldl (fun acc kv => acc ++ kv.1 ++ ": " ++ kv.2 ++ "\n") ""

/-- A policy as declared in the descriptor (name ↦ this body). -/
structure PolicyDef where
  ptype : String
  properties : String
deriving DecidableEq, Repr

/-- The immutable descriptor a VNF is created from: driver names, whether the
template is a TOSCA one, and the declared policies (the source iterates a
list of dicts of name ↦ policy, so the embedding keeps that nesting). -/
structure Vnfd where
  infra_driver : String
  mgmt_driver : String
  tosca : Bool
  policies : List (List (String × PolicyDef))
deriving DecidableEq, Repr

/-- The VNF record: identity, status, backend handle, management URL, the
error reason, the attribute payloads plugin.py reads, placement metadata and
the descriptor reference. -/
structure VnfRecord where
  id : String
  status : Status
  instance_id : Option String
  mgmt_url : Option String
  error_reason : Option String
  config : Option YVal
  param_values : Option YVal
  monitoring_policy : Bool
  region_name : Option String
  vim_name : Option String
  vim_id : String
  vnfd : Vnfd
deriving DecidableEq, Repr

/-- The scaling-policy dict built by _make_policy_dict and decorated by
create_vnf_scale (action) and _handle_vnf_scaling (instance_id).  The
`vnf` entry of the source dict is the record reference; the embedding keeps
the id of that record. -/
structure PolicyDict where
  ptype : String
  properties : String
  vnf_id : String
  name : String
  pid : String
  action : Option String
  instance_id : Option String
deriving DecidableEq, Repr

/-- Persistent state threaded through a run: the stored record (none once
removed) and the event trace. -/
structure St where
  db : Option VnfRecord
  trace : List Event
deriving DecidableEq, Repr

/-- Append one event to the trace. -/
def St.log (st : St) (e : Event) : St :=
  { st with trace := st.trace ++ [e] }

/-- Initial state: one persisted record, empty trace. -/
def St.start (r : VnfRecord) : St := ⟨some r, []⟩

/-- Initial state with no record yet (before create persists one). -/
def St.empty : St := ⟨none, []⟩

/-- Status of the persisted record, if present. -/
def statusOf (st : St) : Option Status := st.db.map (·.status)

/-- Error reason of the persisted record, if present and set. -/
def reasonOf (st : St) : Option String := st.db.bind (·.error_reason)

/-- Management URL of the persisted record, if present and set. -/
def urlOf (st : St) : Option String := st.db.bind (·.mgmt_url)

/-- Number of occurrences of an event in a trace. -/
def countEvent (tr : List Event) (e : Event) : Nat :=
  (tr.filter (fun x => x = e)).length

/-- Fixed outcomes of the infrastructure driver operations, as dispatched
through the driver manager.  create returns the instance handle (possibly
None); scale_wait returns the updated management URL. -/
structure InfraOutcomes where
  create : Except Exc (Option String)
  create_wait : Except Exc Unit
  update : Except Exc Unit
  update_wait : Except Exc Unit
  delete : Except Exc Unit
  delete_wait : Except Exc Unit
  scale : Except Exc Unit
  scale_wait : Except Exc String
deriving Repr

/-- Fixed outcomes of the management-driver hook points. -/
structure MgmtOutcomes where
  create_pre : Except Exc Unit
  create_post : Except Exc Unit
  update_pre : Except Exc Unit
  update_post : Except Exc Unit
  delete_pre : Except Exc Unit
  delete_post : Except Exc Unit
  call : MgmtAction → Except Exc Unit

/-- Result of VIM resolution (vim_client.get_vim); the auth payload itself
is opaque to the orchestration logic. -/
structure VimRes where
  vim_id : String
  vim_name : String
deriving DecidableEq, Repr

/-- The oracle environment for one run: what every external call returns. -/
structure Env where
  infra : InfraOutcomes
  mgmt : MgmtOutcomes
  vim : Except Exc VimRes

/-- Modelled from the spec: vm_db.VNFMPluginDb is not under src/.  The
Status Tracker call set_vnf_error_status_reason records the captured failure
description on the record (section 4.2 setErrorReason); at every call site
in src/ the accompanying move of the status into ERROR is performed by an
explicit status write by the caller (vnf_dict status assignment followed by
_create_vnf_status, _update_vnf_post or _handle_vnf_scaling_post), so this
definition records the reason and leaves the status write to the callers. -/
def set_vnf_error_status_reason (st : St) (reason : String) : St :=
  { st with db := st.db.map (fun r => { r with error_reason := some reason }) }

/-- Modelled from the spec: the Status Tracker guarded transition (section
4.2): applied only when the current status is a member of the expected set,
otherwise no mutation and the failure is surfaced as a conflict (section 4.4
scale step 3).  A present mgmt_url argument is persisted with the
transition. -/
def _update_vnf_scaling_status (st : St) (p : PolicyDict)
    (expected : List Status) (new_status : Status) (mgmt_url : Option String) :
    St × Except Exc VnfRecord :=
  match st.db with
  | none => (st, .error (.VNFNotFound p.vnf_id))
  | some r =>
    if r.status ∈ expected then
      let r2 := { r with status := new_status,
                         mgmt_url := match mgmt_url with
                                     | some u => some u
                                     | none => r.mgmt_url }
      ({ st with db := some r2 }, .ok r2)
    else (st, .error (.VNFInUse p.vnf_id))

/-- Modelled from the spec: the create pre-phase persists the new record
with status PENDING_CREATE (section 4.4 create step 3); the identity is
assigned at creation (section 3). -/
def _create_vnf_pre (st : St) (v : VnfRecord) : St × VnfRecord :=
  let r := { v with id := if v.id = "" then "vnf-new" else v.id,
                    status := Status.PENDING_CREATE }
  ({ st with db := some r }, r)

/-- Modelled from the spec: finalizes the record after the create invocation
or its wait phase: persists the instance handle and the management URL, and
marks the persisted status ERROR when no handle was returned or the wait
phase marked the in-memory record failed (section 4.4 create steps 5 and 6:
finalize immediately when no handle; records the error reason and marks
ERROR on a failed wait). -/
def _create_vnf_post (st : St) (instance_id mgmt_url : Option String)
    (vnf_dict : VnfRecord) : St :=
  { st with db := st.db.map (fun r =>
      { r with instance_id := instance_id, mgmt_url := mgmt_url,
               status := if instance_id = none ∨ vnf_dict.status = Status.ERROR
                         then Status.ERROR else r.status }) }

/-- Modelled from the spec: persists the status the create continuation
resolved to (section 4.2 transition target, section 4.4 create step 6). -/
def _create_vnf_status (st : St) (new_status : Status) : St :=
  { st with db := st.db.map (fun r => { r with status := new_status }) }

/-- Modelled from the spec: the update pre-phase fetches the record (fails
with NotFound if absent) and performs the guarded transition ACTIVE into
PENDING_UPDATE (section 4.4 update, section 4.5). -/
def _update_vnf_pre (st : St) (vnf_id : String) : St × Except Exc VnfRecord :=
  match st.db with
  | none => (st, .error (.VNFNotFound vnf_id))
  | some r =>
    if r.status = Status.ACTIVE then
      let r2 := { r with status := Status.PENDING_UPDATE }
      ({ st with db := some r2 }, .ok r2)
    else (st, .error (.VNFInUse vnf_id))

/-- Modelled from the spec: persists the status the update path resolved to
(section 4.4 update). -/
def _update_vnf_post (st : St) (new_status : Status) : St :=
  { st with db := st.db.map (fun r => { r with status := new_status }) }

/-- Modelled from the spec: the delete pre-phase fetches the record (fails
with NotFound if absent) and moves it into PENDING_DELETE (section 4.4
delete; section 4.5 notes the delete pre-phase is reachable even from ERROR
unconditionally). -/
def _delete_vnf_pre (st : St) (vnf_id : String) : St × Except Exc VnfRecord :=
  match st.db with
  | none => (st, .error (.VNFNotFound vnf_id))
  | some r =>
    let r2 := { r with status := Status.PENDING_DELETE }
    ({ st with db := some r2 }, .ok r2)

/-- Modelled from the spec: finalizes the record at the end of a delete:
removes it when no error was captured, otherwise marks it dead carrying the
captured exception (section 4.4 delete; section 7: DEAD-with-error). -/
def _delete_vnf_post (st : St) (e : Option Exc) : St :=
  match e with
  | none => { st with db := none }
  | some ex =>
    { st with db := st.db.map (fun r =>
        { r with status := Status.DEAD, error_reason := some ex.text }) }

/-- Modelled from the spec: reads the instance handle off the record. -/
def _instance_id (v : VnfRecord) : Option String := v.instance_id

/-- Resolves the VIM for the record: on success the placement metadata and
vim id of the in-memory record are updated and the (opaque) auth payload is
available; a resolution failure propagates (plugin.py get_vim). -/
def get_vim (env : Env) (st : St) (v : VnfRecord) :
    St × VnfRecord × Except Exc Unit :=
  match env.vim with
  | .error e => (st, v, .error e)
  | .ok res => (st, { v with vim_name := some res.vim_name,
                             vim_id := res.vim_id }, .ok ())

/-- Normalization of a config or param_values payload at the top of
create_vnf and update_vnf: a truthy structured payload is dumped to the
canonical string encoding; a string payload only triggers the deprecation
warning (plugin.py lines 293-310 and 359-367). -/
def normalizeAttr (a : Option YVal) : Option YVal :=
  match a with
  | some v =>
    if v.truthy then
      match v with
      | .ydict d => some (.ystr (yamlDump d))
      | .ystr s => some (.ystr s)
    else a
  | none => a

/-- Registers the monitor subscription when the attributes declare a
monitoring policy and a management URL is present (plugin.py
add_vnf_to_monitor). -/
def add_vnf_to_monitor (st : St) (vnf : VnfRecord) : St :=
  if vnf.monitoring_policy ∧ vnf.mgmt_url.isSome then
    st.log Event.subscribeMonitor
  else st

/-- The body of the `with excutils.save_and_reraise_exception()` block in
delete_vnf (plugin.py lines 440-448): marks the in-memory record failed,
invokes mgmt_delete_post, finalizes with the captured error, and re-raises
the saved exception; an exception raised by the block itself propagates
instead (the saved one is dropped, as oslo save_and_reraise does). -/
def delete_vnf_handler (env : Env) (st : St) (vnf : VnfRecord) (e : Exc) :
    St × Except Exc Unit :=
  let _vnf2 := { vnf with status := Status.ERROR, error_reason := some e.text }
  let st := st.log Event.mgmtDeletePost
  match env.mgmt.delete_post with
  | .error e2 => (st, .error e2)
  | .ok _ =>
    let st := _delete_vnf_post st (some e)
    (st, .error e)

/-- delete_vnf (plugin.py lines 417-450): pre-phase fetch, VIM resolution,
monitor unsubscription, then mgmt_delete_pre, mgmt_call(DELETE_VNF) and the
infra delete (only with an instance handle) inside one try block; any
exception there runs delete_vnf_handler; on success the delete wait
continuation is submitted. -/
def delete_vnf (env : Env) (st : St) (vnf_id : String) : St × Except Exc Unit :=
  match _delete_vnf_pre st vnf_id with
  | (st, .error e) => (st, .error e)
  | (st, .ok vnf_dict) =>
  match get_vim env st vnf_dict with
  | (st, _, .error e) => (st, .error e)
  | (st, vnf_dict, .ok _) =>
  let st := st.log Event.unsubscribeMonitor
  let instance_id := _instance_id vnf_dict
  let st := st.log Event.mgmtDeletePre
  match env.mgmt.delete_pre with
  | .error e => delete_vnf_handler env st vnf_dict e
  | .ok _ =>
  let st := st.log (Event.mgmtCall MgmtAction.DELETE_VNF)
  match env.mgmt.call MgmtAction.DELETE_VNF with
  | .error e => delete_vnf_handler env st vnf_dict e
  | .ok _ =>
  let step : St × Except Exc Unit :=
    match instance_id with
    | some _ => ((st.log Event.infraDelete), env.infra.delete)
    | none => (st, .ok ())
  match step with
  | (st, .error e) => delete_vnf_handler env st vnf_dict e
  | (st, .ok _) =>
    let st := st.log (Event.spawn ContTag.deleteVnfWait)
    (st, .ok ())

/-- The delete wait continuation _delete_vnf_wait (plugin.py lines 391-415):
with an instance handle it invokes the infra delete_wait, capturing any
exception into the record (not re-raised); then mgmt_delete_post and the
final record removal or dead-marking with the captured exception. -/
def _delete_vnf_wait (env : Env) (st : St) (vnf : VnfRecord) :
    St × Except Exc Unit :=
  let instance_id := _instance_id vnf
  let step : St × VnfRecord × Option Exc :=
    match instance_id with
    | none => (st, vnf, none)
    | some _ =>
      let st := st.log Event.infraDeleteWait
      match env.infra.delete_wait with
      | .ok _ => (st, vnf, none)
      | .error e2 =>
        (st, { vnf with status := Status.ERROR,
                        error_reason := some e2.text }, some e2)
  match step with
  | (st, _, e) =>
  let st := st.log Event.mgmtDeletePost
  match env.mgmt.delete_post with
  | .error e2 => (st, .error e2)
  | .ok _ => (_delete_vnf_post st e, .ok ())

/-- The body of the `with excutils.save_and_reraise_exception()` block of
update_vnf (plugin.py lines 379-386): marks the record failed, records the
reason, invokes mgmt_update_post, finalizes with ERROR and re-raises; an
exception of the block itself propagates instead. -/
def update_vnf_handler (env : Env) (st : St) (e : Exc) : St × Except Exc Unit :=
  let st := set_vnf_error_status_reason st e.text
  let st := st.log Event.mgmtUpdatePost
  match env.mgmt.update_post with
  | .error e2 => (st, .error e2)
  | .ok _ => (_update_vnf_post st Status.ERROR, .error e)

/-- Shared tail of the update wait continuation (plugin.py lines 351-355):
writes the resolved status on the in-memory record, invokes
mgmt_update_post and finalizes the record with that status. -/
def _update_vnf_wait_finish (env : Env) (st : St) (vnf : VnfRecord)
    (new_status : Status) : St × VnfRecord × Except Exc Unit :=
  let vnf := { vnf with status := new_status }
  let st := st.log Event.mgmtUpdatePost
  match env.mgmt.update_post with
  | .error e => (st, vnf, .error e)
  | .ok _ => (_update_vnf_post st new_status, vnf, .ok ())

/-- The update wait continuation _update_vnf_wait (plugin.py lines 329-355):
invokes the infra update_wait then mgmt_call(UPDATE_VNF) inside a try block
whose only handler is MgmtDriverException (captured: status ERROR with the
exception text); any other exception propagates out of the continuation;
then the shared finish. -/
def _update_vnf_wait (env : Env) (st : St) (vnf : VnfRecord) :
    St × VnfRecord × Except Exc Unit :=
  let st := st.log Event.infraUpdateWait
  match env.infra.update_wait with
  | .error (.MgmtDriverException msg) =>
    let st := set_vnf_error_status_reason st (Exc.text (.MgmtDriverException msg))
    _update_vnf_wait_finish env st vnf Status.ERROR
  | .error e => (st, vnf, .error e)
  | .ok _ =>
  let st := st.log (Event.mgmtCall MgmtAction.UPDATE_VNF)
  match env.mgmt.call MgmtAction.UPDATE_VNF with
  | .error (.MgmtDriverException msg) =>
    let st := set_vnf_error_status_reason st (Exc.text (.MgmtDriverException msg))
    _update_vnf_wait_finish env st vnf Status.ERROR
  | .error e => (st, vnf, .error e)
  | .ok _ => _update_vnf_wait_finish env st vnf Status.ACTIVE

/-- update_vnf (plugin.py lines 357-389): normalizes the config payload,
runs the pre-phase and VIM resolution, then mgmt_update_pre and the infra
update synchronously; any exception there runs update_vnf_handler and
re-raises; on success the update wait continuation is submitted and the
record returned. -/
def update_vnf (env : Env) (st : St) (vnf_id : String)
    (req_config : Option YVal) : St × Except Exc VnfRecord :=
  let _cfg := normalizeAttr req_config
  match _update_vnf_pre st vnf_id with
  | (st, .error e) => (st, .error e)
  | (st, .ok vnf_dict) =>
  match get_vim env st vnf_dict with
  | (st, _, .error e) => (st, .error e)
  | (st, vnf_dict, .ok _) =>
  let st := st.log Event.mgmtUpdatePre
  match env.mgmt.update_pre with
  | .error e =>
    match update_vnf_handler env st e with
    | (st, r) => (st, match r with | .error e2 => .error e2 | .ok _ => .error e)
  | .ok _ =>
  let st := st.log Event.infraUpdate
  match env.infra.update with
  | .error e =>
    match update_vnf_handler env st e with
    | (st, r) => (st, match r with | .error e2 => .error e2 | .ok _ => .error e)
  | .ok _ =>
    let st := st.log (Event.spawn ContTag.updateVnfWait)
    (st, .ok vnf_dict)

/-- The create wait continuation _create_vnf_wait (plugin.py lines 210-257):
invokes the infra create_wait, catching exactly VNFCreateWaitFailed (marks
the in-memory record failed and records the exception text); finalizes the
record, always invokes mgmt_create_post, and — only when a handle exists and
the wait did not fail — persists the management URL, issues
mgmt_call(CREATE_VNF) (catching exactly MgmtDriverException into ERROR with
reason "Unable to configure VDU") and persists the resolved status. -/
def _create_vnf_wait (env : Env) (st : St) (vnf : VnfRecord) :
    St × VnfRecord × Except Exc Unit :=
  let instance_id := _instance_id vnf
  let st := st.log Event.infraCreateWait
  let step : St × VnfRecord × Bool × Option Exc :=
    match env.infra.create_wait with
    | .ok _ => (st, vnf, false, none)
    | .error (.VNFCreateWaitFailed msg) =>
      let vnf := { vnf with status := Status.ERROR }
      let st := set_vnf_error_status_reason st
                  (Exc.text (.VNFCreateWaitFailed msg))
      (st, vnf, true, none)
    | .error e => (st, vnf, false, some e)
  match step with
  | (st, vnf, create_failed, propagated) =>
  match propagated with
  | some e => (st, vnf, .error e)
  | none =>
  let mgmt_url := if instance_id = none ∨ create_failed then none
                  else vnf.mgmt_url
  let st := _create_vnf_post st instance_id mgmt_url vnf
  let st := st.log Event.mgmtCreatePost
  match env.mgmt.create_post with
  | .error e => (st, vnf, .error e)
  | .ok _ =>
  if instance_id = none ∨ create_failed then (st, vnf, .ok ())
  else
    let vnf := { vnf with mgmt_url := mgmt_url }
    let st := st.log (Event.mgmtCall MgmtAction.CREATE_VNF)
    match env.mgmt.call MgmtAction.CREATE_VNF with
    | .ok _ =>
      let vnf := { vnf with status := Status.ACTIVE }
      (_create_vnf_status st Status.ACTIVE, vnf, .ok ())
    | .error (.MgmtDriverException _) =>
      let st := set_vnf_error_status_reason st "Unable to configure VDU"
      let vnf := { vnf with status := Status.ERROR }
      (_create_vnf_status st Status.ERROR, vnf, .ok ())
    | .error e => (st, vnf, .error e)

/-- The synchronous create helper _create_vnf (plugin.py lines 268-288):
persists the new record when the request has no id yet, invokes
mgmt_create_pre, then the infra create; on any exception of the create it
invokes delete_vnf as compensation inside save_and_reraise (the original
error is re-raised when the compensation completes, the compensation error
propagates when it does not); with no instance handle the record is
finalized and None returned; otherwise the handle is stored on the
in-memory record which is returned. -/
def _create_vnf (env : Env) (st : St) (vnf : VnfRecord) :
    St × Except Exc (Option VnfRecord) :=
  let pre : St × VnfRecord :=
    if vnf.id = "" then _create_vnf_pre st vnf else (st, vnf)
  match pre with
  | (st, vnf_dict) =>
  let st := st.log Event.mgmtCreatePre
  match env.mgmt.create_pre with
  | .error e => (st, .error e)
  | .ok _ =>
  let st := st.log Event.infraCreate
  match env.infra.create with
  | .error e =>
    match delete_vnf env st vnf_dict.id with
    | (st, .ok _) => (st, .error e)
    | (st, .error e2) => (st, .error e2)
  | .ok instance_id =>
    match instance_id with
    | none =>
      let st := _create_vnf_post st none none vnf_dict
      (st, .ok none)
    | some iid =>
      (st, .ok (some { vnf_dict with instance_id := some iid }))

/-- config_vnf (plugin.py lines 196-208): with a truthy config payload,
waits boot_wait (time is not modelled) and re-applies the payload through a
normal update_vnf call. -/
def config_vnf (env : Env) (st : St) (vnf : VnfRecord) : St × Except Exc Unit :=
  match vnf.config with
  | none => (st, .ok ())
  | some cfg =>
    if cfg.truthy then
      match update_vnf env st vnf.id (some cfg) with
      | (st, .error e) => (st, .error e)
      | (st, .ok _) => (st, .ok ())
    else (st, .ok ())

/-- create_vnf (plugin.py lines 290-319): normalizes param_values and
config, resolves the VIM, runs _create_vnf, then unconditionally submits
the create_vnf_wait closure (the submission is not guarded on a record
having been returned) and returns whatever _create_vnf produced. -/
def create_vnf (env : Env) (st : St) (vnf : VnfRecord) :
    St × Except Exc (Option VnfRecord) :=
  let vnf := { vnf with param_values := normalizeAttr vnf.param_values,
                        config := normalizeAttr vnf.config }
  match get_vim env st vnf with
  | (st, _, .error e) => (st, .error e)
  | (st, vnf_info, .ok _) =>
  match _create_vnf env st vnf_info with
  | (st, .error e) => (st, .error e)
  | (st, .ok vnf_dict) =>
    let st := st.log (Event.spawn ContTag.createVnfWait)
    (st, .ok vnf_dict)

/-- The create_vnf_wait closure submitted by create_vnf (plugin.py lines
314-317): runs the create wait continuation, registers monitoring and
re-applies the config payload.  The closure captures whatever _create_vnf
returned; when that was None, its first dereference of the absent record
raises. -/
def create_vnf_wait_cont (env : Env) (st : St) (vnf : Option VnfRecord) :
    St × Except Exc Unit :=
  match vnf with
  | none => (st, .error (.TypeError "NoneType object is not subscriptable"))
  | some v =>
    match _create_vnf_wait env st v with
    | (st, _, .error e) => (st, .error e)
    | (st, v, .ok _) =>
      let st := add_vnf_to_monitor st v
      config_vnf env st v

/-- create_vnf_sync (plugin.py lines 321-327): the synchronous variant runs
the wait phase inline and registers no monitoring. -/
def create_vnf_sync (env : Env) (st : St) (vnf : VnfRecord) :
    St × Except Exc (Option VnfRecord) :=
  match get_vim env st vnf with
  | (st, _, .error e) => (st, .error e)
  | (st, vnf2, .ok _) =>
  match _create_vnf env st vnf2 with
  | (st, .error e) => (st, .error e)
  | (st, .ok vnf_dict) =>
    match vnf_dict with
    | none => (st, .error (.TypeError "NoneType object is not subscriptable"))
    | some v =>
      match _create_vnf_wait env st v with
      | (st, _, .error e) => (st, .error e)
      | (st, v2, .ok _) => (st, .ok (some v2))

/-- Modelled from the spec: the scale action names and the fixed
policy-type-to-allowed-actions table (plugins.common.constants is not under
src/); the spec gives the capacity-scaling row with actions scale-in and
scale-out (section 4.4 scale step 2). -/
def ACTION_SCALE_IN : String := "scale-in"

/-- Modelled from the spec: see ACTION_SCALE_IN. -/
def ACTION_SCALE_OUT : String := "scale-out"

/-- Modelled from the spec: the closed policy-type-to-actions map. -/
def POLICY_ACTIONS : List (String × List String) :=
  [("capacity-scaling", [ACTION_SCALE_IN, ACTION_SCALE_OUT])]

/-- Lookup in the POLICY_ACTIONS table. -/
def lookupPolicyActions (t : String) : Option (List String) :=
  (POLICY_ACTIONS.find? (fun kv => kv.1 = t)).map (·.2)

/-- The inner _validate_scaling_policy of _handle_vnf_scaling (plugin.py
lines 454-472): unknown policy type raises VnfPolicyTypeInvalid, an action
outside the allowed list for the type raises VnfPolicyActionInvalid. -/
def _validate_scaling_policy (p : PolicyDict) : Except Exc Unit :=
  match lookupPolicyActions p.ptype with
  | none => .error (.VnfPolicyTypeInvalid p.ptype)
  | some actions =>
    match p.action with
    | none => .error (.KeyError "action")
    | some a =>
      if a ∈ actions then .ok () else .error (.VnfPolicyActionInvalid a)

/-- The inner _get_status of _handle_vnf_scaling (plugin.py lines 474-480):
scale-in maps to PENDING_SCALE_IN, everything else to PENDING_SCALE_OUT. -/
def scale_get_status (p : PolicyDict) : Status :=
  if p.action = some ACTION_SCALE_IN then Status.PENDING_SCALE_IN
  else Status.PENDING_SCALE_OUT

/-- The inner _handle_vnf_scaling_pre (plugin.py lines 483-492): the guarded
transition from expected set {ACTIVE} into the pending status. -/
def _handle_vnf_scaling_pre (st : St) (p : PolicyDict) :
    St × Except Exc VnfRecord :=
  _update_vnf_scaling_status st p [Status.ACTIVE] (scale_get_status p) none

/-- The inner _handle_vnf_scaling_post (plugin.py lines 495-505): the
guarded transition from expected set {pending status} into the new status,
optionally persisting the management URL. -/
def _handle_vnf_scaling_post (st : St) (p : PolicyDict) (new_status : Status)
    (mgmt_url : Option String) : St × Except Exc VnfRecord :=
  _update_vnf_scaling_status st p [scale_get_status p] new_status mgmt_url

/-- The inner _vnf_policy_action (plugin.py lines 508-530): invokes the
infra scale; on any exception, inside save_and_reraise, records the reason
and guarded-transitions to ERROR, then re-raises (an exception of the
handler body itself propagates instead). -/
def _vnf_policy_action (env : Env) (st : St) (p : PolicyDict) :
    St × Except Exc Unit :=
  let st := st.log Event.infraScale
  match env.infra.scale with
  | .ok _ => (st, .ok ())
  | .error e =>
    let st := set_vnf_error_status_reason st e.text
    match _handle_vnf_scaling_post st p Status.ERROR none with
    | (st, .error e2) => (st, .error e2)
    | (st, .ok _) => (st, .error e)

/-- The handler of the scale wait continuation (plugin.py lines 550-558,
`except Exception` with save_and_reraise): records the captured reason,
guarded-transitions to ERROR, and re-raises the captured exception out of
the continuation (an exception of the handler body propagates instead). -/
def scale_wait_handler (st : St) (p : PolicyDict) (e : Exc) :
    St × Except Exc Unit :=
  let st := set_vnf_error_status_reason st e.text
  match _handle_vnf_scaling_post st p Status.ERROR none with
  | (st, .error e2) => (st, .error e2)
  | (st, .ok _) => (st, .error e)

/-- The scale wait continuation _vnf_policy_action_wait (plugin.py lines
533-558): invokes the infra scale_wait (returning the updated management
URL) and guarded-transitions the pending status to ACTIVE with that URL;
any exception of the try block runs scale_wait_handler, which re-raises. -/
def _vnf_policy_action_wait (env : Env) (st : St) (p : PolicyDict) :
    St × Except Exc Unit :=
  let st := st.log Event.infraScaleWait
  match env.infra.scale_wait with
  | .error e => scale_wait_handler st p e
  | .ok mgmt_url =>
    match _handle_vnf_scaling_post st p Status.ACTIVE (some mgmt_url) with
    | (st, .error e) => scale_wait_handler st p e
    | (st, .ok _) => (st, .ok ())

/-- _handle_vnf_scaling (plugin.py lines 452-571): validation, the guarded
pre transition, VIM resolution, the synchronous scale action, submission of
the scale wait continuation, and the policy returned. -/
def _handle_vnf_scaling (env : Env) (st : St) (policy : PolicyDict) :
    St × Except Exc PolicyDict :=
  match _validate_scaling_policy policy with
  | .error e => (st, .error e)
  | .ok _ =>
  match _handle_vnf_scaling_pre st policy with
  | (st, .error e) => (st, .error e)
  | (st, .ok vnf) =>
  let policy := { policy with instance_id := vnf.instance_id }
  match get_vim env st vnf with
  | (st, _, .error e) => (st, .error e)
  | (st, _, .ok _) =>
  match _vnf_policy_action env st policy with
  | (st, .error e) => (st, .error e)
  | (st, .ok _) =>
    let st := st.log (Event.spawn ContTag.scalePolicyWait)
    (st, .ok policy)

/-- _make_policy_dict (plugin.py lines 577-584): builds the policy dict
from the descriptor entry; the vnf entry is the record reference (kept here
as the record id); id is the name. -/
def _make_policy_dict (vnf : VnfRecord) (name : String) (policy : PolicyDef) :
    PolicyDict :=
  { ptype := policy.ptype, properties := policy.properties,
    vnf_id := vnf.id, name := name, pid := name,
    action := none, instance_id := none }

/-- The filters argument of get_vnf_policies: a dict with an optional name
entry (absent or empty is falsy in the source truthiness test). -/
structure Filters where
  name : Option String
deriving DecidableEq, Repr

/-- Truthiness of filters.get("name"). -/
def filterNameTruthy (f : Filters) : Bool :=
  match f.name with
  | some s => s ≠ ""
  | none => false

/-- The inner policy loop of get_vnf_policies (plugin.py lines 594-609) over
one policy dict of the template: each iteration first evaluates
filters.get("name") — with filters absent (None) that dereference raises;
with a truthy name filter a matching entry is added and the inner loop
breaks, a non-matching entry is skipped; otherwise every entry is added. -/
def scanPolicyDict (vnf : VnfRecord) (filters : Option Filters) :
    List (String × PolicyDef) → Except Exc (List PolicyDict)
  | [] => .ok []
  | (name, policy) :: rest =>
    match filters with
    | none => .error (.AttributeError "NoneType object has no attribute get")
    | some f =>
      if filterNameTruthy f then
        if some name = f.name then .ok [_make_policy_dict vnf name policy]
        else scanPolicyDict vnf filters rest
      else
        match scanPolicyDict vnf filters rest with
        | .error e => .error e
        | .ok l => .ok (_make_policy_dict vnf name policy :: l)

/-- The outer policy loop of get_vnf_policies over the list of policy
dicts; a break of the inner loop continues with the next dict. -/
def scanPolicies (vnf : VnfRecord) (filters : Option Filters) :
    List (List (String × PolicyDef)) → Except Exc (List PolicyDict)
  | [] => .ok []
  | d :: rest =>
    match scanPolicyDict vnf filters d with
    | .error e => .error e
    | .ok l1 =>
      match scanPolicies vnf filters rest with
      | .error e => .error e
      | .ok l2 => .ok (l1 ++ l2)

/-- get_vnf_policies (plugin.py lines 586-611): fetches the record, and for
a TOSCA template walks the declared policies applying the filters logic;
for a non-TOSCA template the empty list is returned without the filters
value ever being dereferenced. -/
def get_vnf_policies (st : St) (vnf_id : String) (filters : Option Filters) :
    Except Exc (List PolicyDict) :=
  match st.db with
  | none => .error (.VNFNotFound vnf_id)
  | some vnf =>
    if vnf.vnfd.tosca then scanPolicies vnf filters vnf.vnfd.policies
    else .ok []

/-- get_vnf_policy (plugin.py lines 613-622): looks the named policy up
through get_vnf_policies with a name filter; an empty result raises
VnfPolicyNotFound. -/
def get_vnf_policy (st : St) (policy_id : String) (vnf_id : String) :
    Except Exc PolicyDict :=
  match get_vnf_policies st vnf_id (some { name := some policy_id }) with
  | .error e => .error e
  | .ok (p :: _) => .ok p
  | .ok [] => .error (.VnfPolicyNotFound policy_id)

/-- create_vnf_scale (plugin.py lines 624-631): policy lookup, action
decoration, and the scaling flow. -/
def create_vnf_scale (env : Env) (st : St) (vnf_id : String)
    (policy_name : String) (scale_type : String) : St × Except Exc Unit :=
  match get_vnf_policy st policy_name vnf_id with
  | .error e => (st, .error e)
  | .ok p =>
    let p := { p with action := some scale_type }
    match _handle_vnf_scaling env st p with
    | (st, .error e) => (st, .error e)
    | (st, .ok _) => (st, .ok ())

/-! Concrete fixtures used by witnesses and counterexamples. -/

/-- Descriptor fixture: a TOSCA template declaring one capacity-scaling
policy named SP1. -/
def vnfdFix : Vnfd :=
  { infra_driver := "heat", mgmt_driver := "noop", tosca := true,
    policies := [[("SP1", { ptype := "capacity-scaling", properties := "p" })]] }

/-- An ACTIVE record with an instance handle and a management URL. -/
def recActive : VnfRecord :=
  { id := "vnf-1", status := Status.ACTIVE, instance_id := some "i-1",
    mgmt_url := some "http://10.0.0.1", error_reason := none,
    config := none, param_values := none, monitoring_policy := false,
    region_name := none, vim_name := none, vim_id := "vim-1", vnfd := vnfdFix }

/-- The same record in PENDING_CREATE (as the create wait phase sees it). -/
def recPendingCreate : VnfRecord := { recActive with status := Status.PENDING_CREATE }

/-- The same record in PENDING_SCALE_OUT (a scale-out in flight). -/
def recPendingScaleOut : VnfRecord :=
  { recActive with status := Status.PENDING_SCALE_OUT }

/-- A fresh create request: no id, no handle. -/
def recRequest : VnfRecord :=
  { recActive with id := "", status := Status.PENDING_CREATE, instance_id := none }

/-- Management outcomes with every hook succeeding. -/
def mgmtAllOk : MgmtOutcomes :=
  { create_pre := .ok (), create_post := .ok (), update_pre := .ok (),
    update_post := .ok (), delete_pre := .ok (), delete_post := .ok (),
    call := fun _ => .ok () }

/-- Environment with every backend call succeeding. -/
def envAllOk : Env :=
  { infra := { create := .ok (some "i-1"), create_wait := .ok (),
               update := .ok (), update_wait := .ok (), delete := .ok (),
               delete_wait := .ok (), scale := .ok (),
               scale_wait := .ok "http://10.0.0.2" },
    mgmt := mgmtAllOk, vim := .ok { vim_id := "vim-1", vim_name := "v" } }

/-- Environment where the infra scale_wait raises a generic exception. -/
def envScaleWaitFails : Env :=
  { envAllOk with infra := { envAllOk.infra with
      scale_wait := .error (.OtherError "infra failure") } }

/-- Environment where the infra create returns no instance handle. -/
def envNoHandle : Env :=
  { envAllOk with infra := { envAllOk.infra with create := .ok none } }

/-- Environment where the infra create raises. -/
def envCreateRaises : Env :=
  { envAllOk with infra := { envAllOk.infra with
      create := .error (.OtherError "boom") } }

/-- Environment where mgmt_call(DELETE_VNF) raises. -/
def envDeleteNotifyFails : Env :=
  { envAllOk with mgmt := { mgmtAllOk with
      call := fun a => match a with
        | MgmtAction.DELETE_VNF => .error (.MgmtDriverException "mgmt down")
        | _ => .ok () } }

/-- Environment where mgmt_call(CREATE_VNF) raises a non-management-typed
exception. -/
def envCreateNotifyRaisesOther : Env :=
  { envAllOk with mgmt := { mgmtAllOk with
      call := fun a => match a with
        | MgmtAction.CREATE_VNF => .error (.OtherError "io")
        | _ => .ok () } }

/-- The SP1 policy dict with the scale-out action, as create_vnf_scale
builds it. -/
def policyScaleOut : PolicyDict :=
  { ptype := "capacity-scaling", properties := "p", vnf_id := "vnf-1",
    name := "SP1", pid := "SP1", action := some "scale-out",
    instance_id := none }

/-- Record whose TOSCA descriptor declares no policies. -/
def recNoPolicies : VnfRecord :=
  { recActive with vnfd := { vnfdFix with policies := [] } }

/-! Theorems. -/

/-- C1, counterexample.  The claim says an exception raised inside a wait
continuation is caught, the status set to ERROR with the captured reason,
and never re-raised out of the continuation.  In the scale wait continuation
(_vnf_policy_action_wait) the capture does happen — status ERROR, reason
recorded — but save_and_reraise_exception then re-raises the exception out
of the continuation, refuting the never-re-raised part. -/
theorem C1_counterexample :
    (_vnf_policy_action_wait envScaleWaitFails
        (St.start recPendingScaleOut) policyScaleOut).2
      = .error (.OtherError "infra failure")
    ∧ statusOf (_vnf_policy_action_wait envScaleWaitFails
        (St.start recPendingScaleOut) policyScaleOut).1 = some Status.ERROR
    ∧ reasonOf (_vnf_policy_action_wait envScaleWaitFails
        (St.start recPendingScaleOut) policyScaleOut).1
      = some "infra failure" := by
  refine ⟨rfl, rfl, rfl⟩

/-- C2, the failing input.  With the infra create returning no instance
handle, _create_vnf finalizes the record and returns None, but create_vnf
still submits the create_vnf_wait continuation unconditionally; the
submitted continuation then dereferences the absent record and raises.  The
claim (and the spec) say no wait continuation is submitted in this case. -/
theorem C2_code_bug :
    (create_vnf envNoHandle St.empty recRequest).2 = .ok none
    ∧ Event.spawn ContTag.createVnfWait
        ∈ (create_vnf envNoHandle St.empty recRequest).1.trace
    ∧ (create_vnf_wait_cont envNoHandle
        (create_vnf envNoHandle St.empty recRequest).1 none).2
      = .error (.TypeError "NoneType object is not subscriptable") := by
  refine ⟨rfl, by decide, rfl⟩

/-- C3, counterexample.  The claim says a mgmt_call(DELETE_VNF) failure does
not block deletion and the caller does not receive that error.  In
delete_vnf the mgmt_call sits inside the same try block as the infra
delete: its exception is caught, the record finalized with the error, the
exception re-raised to the caller, and the infra delete never issued. -/
theorem C3_counterexample :
    (delete_vnf envDeleteNotifyFails (St.start recActive) "vnf-1").2
      = .error (.MgmtDriverException "mgmt down")
    ∧ Event.infraDelete
        ∉ (delete_vnf envDeleteNotifyFails (St.start recActive) "vnf-1").1.trace := by
  refine ⟨rfl, by decide⟩

/-- C4, counterexample.  The claim says no wait continuation is scheduled
when the infra create raises.  The compensating delete_vnf invoked from
inside save_and_reraise runs the normal delete path, whose success branch
submits the delete wait continuation — so one continuation is scheduled. -/
theorem C4_counterexample :
    (create_vnf envCreateRaises St.empty recRequest).2
      = .error (.OtherError "boom")
    ∧ Event.spawn ContTag.deleteVnfWait
        ∈ (create_vnf envCreateRaises St.empty recRequest).1.trace := by
  refine ⟨rfl, by decide⟩

/-- C6, counterexample.  The claim says a raising mgmt_call(CREATE_VNF)
moves the status to ERROR with a recorded reason.  The handler catches
exactly MgmtDriverException; an exception of any other type propagates out
of the continuation after the call was issued, and the status is left at
PENDING_CREATE, not ERROR. -/
theorem C6_counterexample :
    (_create_vnf_wait envCreateNotifyRaisesOther
        (St.start recPendingCreate) recPendingCreate).2.2
      = .error (.OtherError "io")
    ∧ countEvent (_create_vnf_wait envCreateNotifyRaisesOther
        (St.start recPendingCreate) recPendingCreate).1.trace
        (Event.mgmtCall MgmtAction.CREATE_VNF) = 1
    ∧ statusOf (_create_vnf_wait envCreateNotifyRaisesOther
        (St.start recPendingCreate) recPendingCreate).1
      = some Status.PENDING_CREATE := by
  refine ⟨rfl, rfl, rfl⟩

/-- C10, counterexample.  The claim says get_vnf_policies raises whenever no
filters argument is supplied, because the filters value is dereferenced
unconditionally, and returns normally only with a filters map.  With a
TOSCA template that declares no policies the loop body never runs, the
filters value is never dereferenced, and the call returns the empty list
normally. -/
theorem C10_counterexample :
    get_vnf_policies (St.start recNoPolicies) "vnf-1" none = .ok [] := by
  rfl

/-- C5.  In the create wait continuation, a CreateWaitFailed from the infra
create_wait leads to final status ERROR with the persisted error reason
equal to the raised message, mgmt_create_post is still invoked exactly
once, and the mgmt_call(CREATE_VNF)/ACTIVE step is skipped; the
continuation completes without an exception. -/
theorem C5_create_wait_failed (env : Env) (r : VnfRecord) (iid msg : String)
    (hcw : env.infra.create_wait = .error (.VNFCreateWaitFailed msg))
    (hcp : env.mgmt.create_post = .ok ())
    (hinst : r.instance_id = some iid) :
    (_create_vnf_wait env (St.start r) r).2.2 = .ok ()
    ∧ statusOf (_create_vnf_wait env (St.start r) r).1 = some Status.ERROR
    ∧ reasonOf (_create_vnf_wait env (St.start r) r).1 = some msg
    ∧ countEvent (_create_vnf_wait env (St.start r) r).1.trace
        Event.mgmtCreatePost = 1
    ∧ countEvent (_create_vnf_wait env (St.start r) r).1.trace
        (Event.mgmtCall MgmtAction.CREATE_VNF) = 0 := by
  simp [_create_vnf_wait, hcw, hcp, hinst, _instance_id,
        set_vnf_error_status_reason, _create_vnf_post, _create_vnf_status,
        St.start, St.log, statusOf, reasonOf, countEvent, Exc.text,
        List.filter]

/-- C5, witness: the theorem applied at a concrete environment and record. -/
theorem C5_create_wait_failed_witness :
    (_create_vnf_wait
        { envAllOk with infra := { envAllOk.infra with
            create_wait := .error (.VNFCreateWaitFailed "stack failed") } }
        (St.start recPendingCreate) recPendingCreate).2.2 = .ok ()
    ∧ statusOf (_create_vnf_wait
        { envAllOk with infra := { envAllOk.infra with
            create_wait := .error (.VNFCreateWaitFailed "stack failed") } }
        (St.start recPendingCreate) recPendingCreate).1 = some Status.ERROR
    ∧ reasonOf (_create_vnf_wait
        { envAllOk with infra := { envAllOk.infra with
            create_wait := .error (.VNFCreateWaitFailed "stack failed") } }
        (St.start recPendingCreate) recPendingCreate).1 = some "stack failed"
    ∧ countEvent (_create_vnf_wait
        { envAllOk with infra := { envAllOk.infra with
            create_wait := .error (.VNFCreateWaitFailed "stack failed") } }
        (St.start recPendingCreate) recPendingCreate).1.trace
        Event.mgmtCreatePost = 1
    ∧ countEvent (_create_vnf_wait
        { envAllOk with infra := { envAllOk.infra with
            create_wait := .error (.VNFCreateWaitFailed "stack failed") } }
        (St.start recPendingCreate) recPendingCreate).1.trace
        (Event.mgmtCall MgmtAction.CREATE_VNF) = 0 :=
  C5_create_wait_failed _ recPendingCreate "i-1" "stack failed" rfl rfl rfl

/-- C6, amended.  In the create wait continuation, when create_wait
succeeds with an instance handle: exactly one mgmt_call(CREATE_VNF) is
issued and the status is set to ACTIVE with the management URL persisted;
if that mgmt_call raises MgmtDriverException, the status is set to ERROR
with the recorded reason "Unable to configure VDU"; but if it raises an
exception of any other type, the exception propagates out of the
continuation and the status is left at PENDING_CREATE. -/
theorem C6_amended :
    (∀ (env : Env) (r : VnfRecord) (iid u : String),
      env.infra.create_wait = .ok () →
      env.mgmt.create_post = .ok () →
      env.mgmt.call MgmtAction.CREATE_VNF = .ok () →
      r.instance_id = some iid → r.mgmt_url = some u →
      (_create_vnf_wait env (St.start r) r).2.2 = .ok ()
      ∧ statusOf (_create_vnf_wait env (St.start r) r).1 = some Status.ACTIVE
      ∧ urlOf (_create_vnf_wait env (St.start r) r).1 = some u
      ∧ countEvent (_create_vnf_wait env (St.start r) r).1.trace
          (Event.mgmtCall MgmtAction.CREATE_VNF) = 1)
    ∧ (∀ (env : Env) (r : VnfRecord) (iid msg : String),
      env.infra.create_wait = .ok () →
      env.mgmt.create_post = .ok () →
      env.mgmt.call MgmtAction.CREATE_VNF = .error (.MgmtDriverException msg) →
      r.instance_id = some iid →
      (_create_vnf_wait env (St.start r) r).2.2 = .ok ()
      ∧ statusOf (_create_vnf_wait env (St.start r) r).1 = some Status.ERROR
      ∧ reasonOf (_create_vnf_wait env (St.start r) r).1
          = some "Unable to configure VDU")
    ∧ (∀ (env : Env) (r : VnfRecord) (iid : String) (e : Exc),
      env.infra.create_wait = .ok () →
      env.mgmt.create_post = .ok () →
      env.mgmt.call MgmtAction.CREATE_VNF = .error e →
      (∀ m, e ≠ Exc.MgmtDriverException m) →
      r.instance_id = some iid → r.status = Status.PENDING_CREATE →
      (_create_vnf_wait env (St.start r) r).2.2 = .error e
      ∧ statusOf (_create_vnf_wait env (St.start r) r).1
          = some Status.PENDING_CREATE) := by
  refine ⟨?_, ?_, ?_⟩
  · intro env r iid u hcw hcp hcall hinst hurl
    simp [_create_vnf_wait, hcw, hcp, hcall, hinst, hurl, _instance_id,
          _create_vnf_post, _create_vnf_status, St.start, St.log,
          statusOf, urlOf, countEvent, List.filter]
  · intro env r iid msg hcw hcp hcall hinst
    simp [_create_vnf_wait, hcw, hcp, hcall, hinst, _instance_id,
          set_vnf_error_status_reason, _create_vnf_post, _create_vnf_status,
          St.start, St.log, statusOf, reasonOf, countEvent, List.filter]
  · intro env r iid e hcw hcp hcall hne hinst hstat
    cases e <;>
      simp_all [_create_vnf_wait, _instance_id, _create_vnf_post,
                _create_vnf_status, St.start, St.log, statusOf]

/-- C6, witness: all three parts of the amended claim at concrete inputs. -/
theorem C6_amended_witness :
    ((_create_vnf_wait envAllOk (St.start recPendingCreate)
        recPendingCreate).2.2 = .ok ()
      ∧ statusOf (_create_vnf_wait envAllOk (St.start recPendingCreate)
          recPendingCreate).1 = some Status.ACTIVE
      ∧ urlOf (_create_vnf_wait envAllOk (St.start recPendingCreate)
          recPendingCreate).1 = some "http://10.0.0.1"
      ∧ countEvent (_create_vnf_wait envAllOk (St.start recPendingCreate)
          recPendingCreate).1.trace
          (Event.mgmtCall MgmtAction.CREATE_VNF) = 1)
    ∧ ((_create_vnf_wait
        { envAllOk with mgmt := { mgmtAllOk with
            call := fun a => match a with
              | MgmtAction.CREATE_VNF => .error (.MgmtDriverException "cfg")
              | _ => .ok () } }
        (St.start recPendingCreate) recPendingCreate).2.2 = .ok ()
      ∧ statusOf (_create_vnf_wait
          { envAllOk with mgmt := { mgmtAllOk with
              call := fun a => match a with
                | MgmtAction.CREATE_VNF => .error (.MgmtDriverException "cfg")
                | _ => .ok () } }
          (St.start recPendingCreate) recPendingCreate).1 = some Status.ERROR
      ∧ reasonOf (_create_vnf_wait
          { envAllOk with mgmt := { mgmtAllOk with
              call := fun a => match a with
                | MgmtAction.CREATE_VNF => .error (.MgmtDriverException "cfg")
                | _ => .ok () } }
          (St.start recPendingCreate) recPendingCreate).1
          = some "Unable to configure VDU")
    ∧ ((_create_vnf_wait envCreateNotifyRaisesOther
        (St.start recPendingCreate) recPendingCreate).2.2
          = .error (.OtherError "io")
      ∧ statusOf (_create_vnf_wait envCreateNotifyRaisesOther
          (St.start recPendingCreate) recPendingCreate).1
          = some Status.PENDING_CREATE) :=
  ⟨C6_amended.1 envAllOk recPendingCreate "i-1" "http://10.0.0.1"
      rfl rfl rfl rfl rfl,
   C6_amended.2.1 _ recPendingCreate "i-1" "cfg" rfl rfl rfl rfl,
   C6_amended.2.2 envCreateNotifyRaisesOther recPendingCreate "i-1"
      (.OtherError "io") rfl rfl rfl (by intro m h; cases h) rfl rfl⟩

/-- C1, amended.  Wait continuations capture only their designated failure
modes.  (1) The scale wait continuation captures any exception — status
forced to ERROR with the captured reason via the guarded transition — but
then re-raises it out of the continuation.  (2) The update wait continuation
catches exactly MgmtDriverException (from update_wait or mgmt_call): status
ERROR with the exception text, nothing re-raised; (3) an exception of any
other type from update_wait propagates out with the stored record
untouched.  (4) The delete wait continuation captures any delete_wait
exception into the finalized record without re-raising.  (5) A
MgmtDriverException from mgmt_call(UPDATE_VNF) is likewise caught into
ERROR.  (6) The create wait continuation catches exactly
VNFCreateWaitFailed from create_wait: status ERROR with the captured
reason, nothing re-raised; (7) an exception of any other type from
create_wait propagates out of the continuation with the stored record
untouched. -/
theorem C1_amended :
    (∀ (env : Env) (st : St) (p : PolicyDict) (r : VnfRecord) (e : Exc),
      env.infra.scale_wait = .error e →
      st.db = some r → r.status = scale_get_status p →
      (_vnf_policy_action_wait env st p).2 = .error e
      ∧ statusOf (_vnf_policy_action_wait env st p).1 = some Status.ERROR
      ∧ reasonOf (_vnf_policy_action_wait env st p).1 = some e.text)
    ∧ (∀ (env : Env) (st : St) (r v : VnfRecord) (msg : String),
      st.db = some r →
      env.infra.update_wait = .error (.MgmtDriverException msg) →
      env.mgmt.update_post = .ok () →
      (_update_vnf_wait env st v).2.2 = .ok ()
      ∧ statusOf (_update_vnf_wait env st v).1 = some Status.ERROR
      ∧ reasonOf (_update_vnf_wait env st v).1 = some msg)
    ∧ (∀ (env : Env) (st : St) (v : VnfRecord) (e : Exc),
      env.infra.update_wait = .error e →
      (∀ m, e ≠ Exc.MgmtDriverException m) →
      (_update_vnf_wait env st v).2.2 = .error e
      ∧ (_update_vnf_wait env st v).1.db = st.db)
    ∧ (∀ (env : Env) (st : St) (r v : VnfRecord) (iid : String) (e : Exc),
      st.db = some r → v.instance_id = some iid →
      env.infra.delete_wait = .error e →
      env.mgmt.delete_post = .ok () →
      (_delete_vnf_wait env st v).2 = .ok ()
      ∧ statusOf (_delete_vnf_wait env st v).1 = some Status.DEAD
      ∧ reasonOf (_delete_vnf_wait env st v).1 = some e.text)
    ∧ (∀ (env : Env) (st : St) (r v : VnfRecord) (msg : String),
      st.db = some r →
      env.infra.update_wait = .ok () →
      env.mgmt.call MgmtAction.UPDATE_VNF = .error (.MgmtDriverException msg) →
      env.mgmt.update_post = .ok () →
      (_update_vnf_wait env st v).2.2 = .ok ()
      ∧ statusOf (_update_vnf_wait env st v).1 = some Status.ERROR
      ∧ reasonOf (_update_vnf_wait env st v).1 = some msg)
    ∧ (∀ (env : Env) (st : St) (r v : VnfRecord) (iid msg : String),
      st.db = some r → v.instance_id = some iid →
      env.infra.create_wait = .error (.VNFCreateWaitFailed msg) →
      env.mgmt.create_post = .ok () →
      (_create_vnf_wait env st v).2.2 = .ok ()
      ∧ statusOf (_create_vnf_wait env st v).1 = some Status.ERROR
      ∧ reasonOf (_create_vnf_wait env st v).1 = some msg)
    ∧ (∀ (env : Env) (st : St) (v : VnfRecord) (e : Exc),
      env.infra.create_wait = .error e →
      (∀ m, e ≠ Exc.VNFCreateWaitFailed m) →
      (_create_vnf_wait env st v).2.2 = .error e
      ∧ (_create_vnf_wait env st v).1.db = st.db) := by
  refine ⟨?_, ?_, ?_, ?_, ?_, ?_, ?_⟩
  · intro env st p r e hsw hdb hstat
    simp [_vnf_policy_action_wait, scale_wait_handler, hsw, hdb, hstat,
          set_vnf_error_status_reason, _handle_vnf_scaling_post,
          _update_vnf_scaling_status, St.log, statusOf, reasonOf]
  · intro env st r v msg hdb huw hup
    simp [_update_vnf_wait, _update_vnf_wait_finish, huw, hup, hdb,
          set_vnf_error_status_reason, _update_vnf_post, St.log,
          statusOf, reasonOf, Exc.text]
  · intro env st v e huw hne
    cases e <;>
      simp_all [_update_vnf_wait, St.log]
  · intro env st r v iid e hdb hinst hdw hdp
    simp [_delete_vnf_wait, _instance_id, hinst, hdw, hdp, hdb,
          _delete_vnf_post, St.log, statusOf, reasonOf]
  · intro env st r v msg hdb huw hcall hup
    simp [_update_vnf_wait, _update_vnf_wait_finish, huw, hcall, hup, hdb,
          set_vnf_error_status_reason, _update_vnf_post, St.log,
          statusOf, reasonOf, Exc.text]
  · intro env st r v iid msg hdb hinst hcw hcp
    simp [_create_vnf_wait, hcw, hcp, hinst, hdb, _instance_id,
          set_vnf_error_status_reason, _create_vnf_post, _create_vnf_status,
          St.log, statusOf, reasonOf, Exc.text]
  · intro env st v e hcw hne
    cases e <;>
      simp_all [_create_vnf_wait, _instance_id, St.log]

/-- C1, witness: the scale-wait part at the concrete inputs of the
counterexample environment, and the two create-wait parts at concrete
environments (the designated VNFCreateWaitFailed caught into ERROR, a
differently-typed exception propagating with the record untouched). -/
theorem C1_amended_witness :
    ((_vnf_policy_action_wait envScaleWaitFails
        (St.start recPendingScaleOut) policyScaleOut).2
      = .error (.OtherError "infra failure")
    ∧ statusOf (_vnf_policy_action_wait envScaleWaitFails
        (St.start recPendingScaleOut) policyScaleOut).1 = some Status.ERROR
    ∧ reasonOf (_vnf_policy_action_wait envScaleWaitFails
        (St.start recPendingScaleOut) policyScaleOut).1
      = some (Exc.text (.OtherError "infra failure")))
    ∧ ((_create_vnf_wait
        { envAllOk with infra := { envAllOk.infra with
            create_wait := .error (.VNFCreateWaitFailed "cw boom") } }
        (St.start recActive) recActive).2.2 = .ok ()
    ∧ statusOf (_create_vnf_wait
        { envAllOk with infra := { envAllOk.infra with
            create_wait := .error (.VNFCreateWaitFailed "cw boom") } }
        (St.start recActive) recActive).1 = some Status.ERROR
    ∧ reasonOf (_create_vnf_wait
        { envAllOk with infra := { envAllOk.infra with
            create_wait := .error (.VNFCreateWaitFailed "cw boom") } }
        (St.start recActive) recActive).1 = some "cw boom")
    ∧ ((_create_vnf_wait
        { envAllOk with infra := { envAllOk.infra with
            create_wait := .error (.OtherError "cw io") } }
        (St.start recActive) recActive).2.2 = .error (.OtherError "cw io")
    ∧ (_create_vnf_wait
        { envAllOk with infra := { envAllOk.infra with
            create_wait := .error (.OtherError "cw io") } }
        (St.start recActive) recActive).1.db = (St.start recActive).db) :=
  ⟨C1_amended.1 envScaleWaitFails (St.start recPendingScaleOut)
      policyScaleOut recPendingScaleOut (.OtherError "infra failure")
      rfl rfl rfl,
   C1_amended.2.2.2.2.2.1 _ (St.start recActive) recActive recActive
      "i-1" "cw boom" rfl rfl rfl rfl,
   C1_amended.2.2.2.2.2.2 _ (St.start recActive) recActive
      (.OtherError "cw io") rfl (by intro m h; cases h)⟩

/-- C3, amended.  A mgmt_call(DELETE_VNF) failure during delete_vnf blocks
the deletion like any other synchronous failure there: the exception is
caught, mgmt_delete_post is invoked, the record is finalized dead with the
captured error, the exception is re-raised to the caller, and the infra
delete is never issued.  A MgmtDriverException from mgmt_call during the
create or update wait continuations moves the status to ERROR without
surfacing to any caller. -/
theorem C3_amended :
    (∀ (env : Env) (r : VnfRecord) (vr : VimRes) (e : Exc),
      env.vim = .ok vr →
      env.mgmt.delete_pre = .ok () →
      env.mgmt.call MgmtAction.DELETE_VNF = .error e →
      env.mgmt.delete_post = .ok () →
      (delete_vnf env (St.start r) r.id).2 = .error e
      ∧ Event.infraDelete ∉ (delete_vnf env (St.start r) r.id).1.trace
      ∧ Event.mgmtDeletePost ∈ (delete_vnf env (St.start r) r.id).1.trace
      ∧ statusOf (delete_vnf env (St.start r) r.id).1 = some Status.DEAD
      ∧ reasonOf (delete_vnf env (St.start r) r.id).1 = some e.text)
    ∧ (∀ (env : Env) (r : VnfRecord) (iid msg : String),
      env.infra.create_wait = .ok () →
      env.mgmt.create_post = .ok () →
      env.mgmt.call MgmtAction.CREATE_VNF = .error (.MgmtDriverException msg) →
      r.instance_id = some iid →
      (_create_vnf_wait env (St.start r) r).2.2 = .ok ()
      ∧ statusOf (_create_vnf_wait env (St.start r) r).1 = some Status.ERROR)
    ∧ (∀ (env : Env) (st : St) (r v : VnfRecord) (msg : String),
      st.db = some r →
      env.infra.update_wait = .ok () →
      env.mgmt.call MgmtAction.UPDATE_VNF = .error (.MgmtDriverException msg) →
      env.mgmt.update_post = .ok () →
      (_update_vnf_wait env st v).2.2 = .ok ()
      ∧ statusOf (_update_vnf_wait env st v).1 = some Status.ERROR) := by
  refine ⟨?_, ?_, ?_⟩
  · intro env r vr e hvim hdp hcall hdpo
    simp [delete_vnf, delete_vnf_handler, _delete_vnf_pre, _delete_vnf_post,
          get_vim, _instance_id, hvim, hdp, hcall, hdpo,
          St.start, St.log, statusOf, reasonOf]
  · intro env r iid msg hcw hcp hcall hinst
    simp [_create_vnf_wait, hcw, hcp, hcall, hinst, _instance_id,
          set_vnf_error_status_reason, _create_vnf_post, _create_vnf_status,
          St.start, St.log, statusOf]
  · intro env st r v msg hdb huw hcall hup
    simp [_update_vnf_wait, _update_vnf_wait_finish, huw, hcall, hup, hdb,
          set_vnf_error_status_reason, _update_vnf_post, St.log, statusOf]

/-- C3, witness: the delete part of the amended claim at the concrete
counterexample inputs. -/
theorem C3_amended_witness :
    (delete_vnf envDeleteNotifyFails (St.start recActive) recActive.id).2
      = .error (.MgmtDriverException "mgmt down")
    ∧ Event.infraDelete
        ∉ (delete_vnf envDeleteNotifyFails (St.start recActive) recActive.id).1.trace
    ∧ Event.mgmtDeletePost
        ∈ (delete_vnf envDeleteNotifyFails (St.start recActive) recActive.id).1.trace
    ∧ statusOf (delete_vnf envDeleteNotifyFails
        (St.start recActive) recActive.id).1 = some Status.DEAD
    ∧ reasonOf (delete_vnf envDeleteNotifyFails
        (St.start recActive) recActive.id).1
      = some (Exc.text (.MgmtDriverException "mgmt down")) :=
  C3_amended.1 envDeleteNotifyFails recActive
    { vim_id := "vim-1", vim_name := "v" } (.MgmtDriverException "mgmt down")
    rfl rfl rfl rfl

/-- C4, amended.  If the infra create invocation raises, delete_vnf is
invoked on the new record as best-effort compensation and the original
exception is re-raised to the caller (when the compensation itself
completes); no create-wait continuation is scheduled, but the compensating
delete, proceeding normally, schedules its own delete-wait continuation. -/
theorem C4_amended (env : Env) (r : VnfRecord) (vr : VimRes) (e : Exc)
    (hcr : env.infra.create = .error e)
    (hvim : env.vim = .ok vr)
    (hcp : env.mgmt.create_pre = .ok ())
    (hdp : env.mgmt.delete_pre = .ok ())
    (hcall : env.mgmt.call MgmtAction.DELETE_VNF = .ok ())
    (hid : r.id = "")
    (hinst : r.instance_id = none) :
    (create_vnf env St.empty r).2 = .error e
    ∧ Event.spawn ContTag.createVnfWait ∉ (create_vnf env St.empty r).1.trace
    ∧ Event.unsubscribeMonitor ∈ (create_vnf env St.empty r).1.trace
    ∧ Event.mgmtDeletePre ∈ (create_vnf env St.empty r).1.trace
    ∧ Event.spawn ContTag.deleteVnfWait ∈ (create_vnf env St.empty r).1.trace := by
  simp [create_vnf, _create_vnf, _create_vnf_pre, delete_vnf,
        delete_vnf_handler, _delete_vnf_pre, _delete_vnf_post, get_vim,
        _instance_id, normalizeAttr, hcr, hvim, hcp, hdp, hcall, hid, hinst,
        St.empty, St.log]

/-- C4, witness: the amended claim at the concrete counterexample inputs. -/
theorem C4_amended_witness :
    (create_vnf envCreateRaises St.empty recRequest).2
      = .error (.OtherError "boom")
    ∧ Event.spawn ContTag.createVnfWait
        ∉ (create_vnf envCreateRaises St.empty recRequest).1.trace
    ∧ Event.unsubscribeMonitor
        ∈ (create_vnf envCreateRaises St.empty recRequest).1.trace
    ∧ Event.mgmtDeletePre
        ∈ (create_vnf envCreateRaises St.empty recRequest).1.trace
    ∧ Event.spawn ContTag.deleteVnfWait
        ∈ (create_vnf envCreateRaises St.empty recRequest).1.trace :=
  C4_amended envCreateRaises recRequest { vim_id := "vim-1", vim_name := "v" }
    (.OtherError "boom") rfl rfl rfl rfl rfl rfl rfl

/-- C7.  A scale request attempts the guarded transition into
PENDING_SCALE_IN or PENDING_SCALE_OUT only from expected-status set
{ACTIVE}: from ACTIVE the pending status is entered, the scale action
invoked and the wait continuation submitted, while a second scale finding
the record already in a pending status fails the guard as a conflict with
no state change and no driver invocation.  The scale wait continuation
resolves the pending status with a guarded transition: to ACTIVE with the
updated management URL on success, to ERROR with the captured reason on
exception. -/
theorem C7_scale_guarded :
    (∀ (env : Env) (st : St) (r : VnfRecord) (p : PolicyDict) (vr : VimRes),
      st.db = some r → r.status = Status.ACTIVE →
      p.ptype = "capacity-scaling" →
      (p.action = some ACTION_SCALE_IN ∨ p.action = some ACTION_SCALE_OUT) →
      env.vim = .ok vr → env.infra.scale = .ok () →
      (_handle_vnf_scaling env st p).2 = .ok { p with instance_id := r.instance_id }
      ∧ statusOf (_handle_vnf_scaling env st p).1 = some (scale_get_status p)
      ∧ (scale_get_status p = Status.PENDING_SCALE_IN
         ∨ scale_get_status p = Status.PENDING_SCALE_OUT)
      ∧ Event.spawn ContTag.scalePolicyWait ∈ (_handle_vnf_scaling env st p).1.trace)
    ∧ (∀ (env : Env) (st : St) (r : VnfRecord) (p : PolicyDict),
      st.db = some r →
      (r.status = Status.PENDING_SCALE_IN ∨ r.status = Status.PENDING_SCALE_OUT) →
      p.ptype = "capacity-scaling" →
      (p.action = some ACTION_SCALE_IN ∨ p.action = some ACTION_SCALE_OUT) →
      _handle_vnf_scaling env st p = (st, .error (.VNFInUse p.vnf_id)))
    ∧ (∀ (env : Env) (st : St) (r : VnfRecord) (p : PolicyDict) (u : String),
      st.db = some r → r.status = scale_get_status p →
      env.infra.scale_wait = .ok u →
      (_vnf_policy_action_wait env st p).2 = .ok ()
      ∧ statusOf (_vnf_policy_action_wait env st p).1 = some Status.ACTIVE
      ∧ urlOf (_vnf_policy_action_wait env st p).1 = some u)
    ∧ (∀ (env : Env) (st : St) (r : VnfRecord) (p : PolicyDict) (e : Exc),
      st.db = some r → r.status = scale_get_status p →
      env.infra.scale_wait = .error e →
      statusOf (_vnf_policy_action_wait env st p).1 = some Status.ERROR
      ∧ reasonOf (_vnf_policy_action_wait env st p).1 = some e.text) := by
  refine ⟨?_, ?_, ?_, ?_⟩
  · intro env st r p vr hdb hstat htype hact hvim hscale
    rcases hact with hact | hact <;>
      simp [_handle_vnf_scaling, _validate_scaling_policy,
            lookupPolicyActions, POLICY_ACTIONS, ACTION_SCALE_IN,
            ACTION_SCALE_OUT, _handle_vnf_scaling_pre,
            _update_vnf_scaling_status, scale_get_status,
            _vnf_policy_action, get_vim, hdb, hstat, htype, hact, hvim,
            hscale, St.log, statusOf]
  · intro env st r p hdb hstat htype hact
    rcases hact with hact | hact <;> rcases hstat with hstat | hstat <;>
      simp [_handle_vnf_scaling, _validate_scaling_policy,
            lookupPolicyActions, POLICY_ACTIONS, ACTION_SCALE_IN,
            ACTION_SCALE_OUT, _handle_vnf_scaling_pre,
            _update_vnf_scaling_status, scale_get_status,
            hdb, hstat, htype, hact]
  · intro env st r p u hdb hstat hsw
    simp [_vnf_policy_action_wait, _handle_vnf_scaling_post,
          _update_vnf_scaling_status, hdb, hstat, hsw, St.log,
          statusOf, urlOf]
  · intro env st r p e hdb hstat hsw
    simp [_vnf_policy_action_wait, scale_wait_handler,
          _handle_vnf_scaling_post, _update_vnf_scaling_status,
          set_vnf_error_status_reason, hdb, hstat, hsw, St.log,
          statusOf, reasonOf]

/-- C7, witness: the from-ACTIVE part and the pending-conflict part at
concrete inputs. -/
theorem C7_scale_guarded_witness :
    ((_handle_vnf_scaling envAllOk (St.start recActive) policyScaleOut).2
       = .ok { policyScaleOut with instance_id := recActive.instance_id }
     ∧ statusOf (_handle_vnf_scaling envAllOk (St.start recActive)
         policyScaleOut).1 = some (scale_get_status policyScaleOut)
     ∧ (scale_get_status policyScaleOut = Status.PENDING_SCALE_IN
        ∨ scale_get_status policyScaleOut = Status.PENDING_SCALE_OUT)
     ∧ Event.spawn ContTag.scalePolicyWait
         ∈ (_handle_vnf_scaling envAllOk (St.start recActive) policyScaleOut).1.trace)
    ∧ _handle_vnf_scaling envAllOk (St.start recPendingScaleOut) policyScaleOut
       = (St.start recPendingScaleOut, .error (.VNFInUse policyScaleOut.vnf_id)) :=
  ⟨C7_scale_guarded.1 envAllOk (St.start recActive) recActive policyScaleOut
      { vim_id := "vim-1", vim_name := "v" } rfl rfl rfl (Or.inr rfl) rfl rfl,
   C7_scale_guarded.2.1 envAllOk (St.start recPendingScaleOut)
      recPendingScaleOut policyScaleOut rfl (Or.inr rfl) rfl (Or.inr rfl)⟩

/-- Helper: with a truthy name filter matching no entry of one policy dict,
the inner loop adds nothing. -/
theorem scanPolicyDict_no_match (vnf : VnfRecord) (f : Filters) (nm : String)
    (hf : f.name = some nm) (hnm : nm ≠ "")
    (l : List (String × PolicyDef)) (h : ∀ x ∈ l, x.1 ≠ nm) :
    scanPolicyDict vnf (some f) l = .ok [] := by
  induction l with
  | nil => rfl
  | cons a rest ih =>
    obtain ⟨name, pol⟩ := a
    have ha : name ≠ nm := h (name, pol) (List.mem_cons_self _ _)
    have hrest : ∀ x ∈ rest, x.1 ≠ nm :=
      fun x hx => h x (List.mem_cons_of_mem _ hx)
    simp [scanPolicyDict, filterNameTruthy, hf, hnm, ha, ih hrest]

/-- Helper: with a truthy name filter matching no entry of any policy dict,
the whole walk yields the empty list. -/
theorem scanPolicies_no_match (vnf : VnfRecord) (f : Filters) (nm : String)
    (hf : f.name = some nm) (hnm : nm ≠ "")
    (ds : List (List (String × PolicyDef)))
    (h : ∀ d ∈ ds, ∀ x ∈ d, x.1 ≠ nm) :
    scanPolicies vnf (some f) ds = .ok [] := by
  induction ds with
  | nil => rfl
  | cons d rest ih =>
    have hd : ∀ x ∈ d, x.1 ≠ nm := h d (List.mem_cons_self _ _)
    have hrest : ∀ d2 ∈ rest, ∀ x ∈ d2, x.1 ≠ nm :=
      fun d2 hd2 => h d2 (List.mem_cons_of_mem _ hd2)
    simp [scanPolicies, scanPolicyDict_no_match vnf f nm hf hnm d hd, ih hrest]

/-- C8.  Scale validation is synchronous and precedes any state mutation:
a policy name declared nowhere in the descriptor fails with
VnfPolicyNotFound, and an action outside the fixed table row of the found
policy type fails with VnfPolicyActionInvalid — in both cases the state
(record and trace) is returned untouched, so no status transition was
attempted and no infra driver invoked. -/
theorem C8_scale_validation :
    (∀ (env : Env) (st : St) (r : VnfRecord) (nm a : String),
      st.db = some r → nm ≠ "" →
      (∀ d ∈ r.vnfd.policies, ∀ x ∈ d, x.1 ≠ nm) →
      create_vnf_scale env st r.id nm a
        = (st, .error (.VnfPolicyNotFound nm)))
    ∧ (∀ (env : Env) (st : St) (vid nm a : String) (p : PolicyDict),
      get_vnf_policy st nm vid = .ok p →
      p.ptype = "capacity-scaling" →
      a ≠ ACTION_SCALE_IN → a ≠ ACTION_SCALE_OUT →
      create_vnf_scale env st vid nm a
        = (st, .error (.VnfPolicyActionInvalid a))) := by
  refine ⟨?_, ?_⟩
  · intro env st r nm a hdb hnm hnone
    cases htosca : r.vnfd.tosca <;>
      simp [create_vnf_scale, get_vnf_policy, get_vnf_policies, hdb, htosca,
            scanPolicies_no_match r { name := some nm } nm rfl hnm
              r.vnfd.policies hnone]
  · intro env st vid nm a p hp htype ha1 ha2
    simp only [ACTION_SCALE_IN] at ha1
    simp only [ACTION_SCALE_OUT] at ha2
    simp [create_vnf_scale, hp, _handle_vnf_scaling,
          _validate_scaling_policy, lookupPolicyActions, POLICY_ACTIONS,
          ACTION_SCALE_IN, ACTION_SCALE_OUT, htype, ha1, ha2]

/-- C8, witness: both validation failures at concrete inputs. -/
theorem C8_scale_validation_witness :
    create_vnf_scale envAllOk (St.start recActive) recActive.id "NOPE" "scale-out"
      = (St.start recActive, .error (.VnfPolicyNotFound "NOPE"))
    ∧ create_vnf_scale envAllOk (St.start recActive) "vnf-1" "SP1" "fly"
      = (St.start recActive, .error (.VnfPolicyActionInvalid "fly")) :=
  ⟨C8_scale_validation.1 envAllOk (St.start recActive) recActive "NOPE"
      "scale-out" rfl (by decide) (by decide),
   C8_scale_validation.2 envAllOk (St.start recActive) "vnf-1" "SP1" "fly"
      (_make_policy_dict recActive "SP1" { ptype := "capacity-scaling", properties := "p" })
      rfl rfl (by decide) (by decide)⟩

/-- C9.  On every path of delete_vnf, whenever the infra delete call is
issued, the monitor unsubscription precedes it in the trace (all paths,
including every failing one, quantified over the whole environment). -/
theorem C9_unsubscribe_before_infra_delete (env : Env) (r : VnfRecord)
    (vid : String) :
    Event.infraDelete ∈ (delete_vnf env (St.start r) vid).1.trace →
    Event.unsubscribeMonitor
      ∈ ((delete_vnf env (St.start r) vid).1.trace.takeWhile
          (fun e => decide (e ≠ Event.infraDelete))) := by
  rcases hvim : env.vim with e | vr <;>
  rcases hdp : env.mgmt.delete_pre with e1 | u1 <;>
  rcases hcall : env.mgmt.call MgmtAction.DELETE_VNF with e2 | u2 <;>
  rcases hinst : r.instance_id with _ | iid <;>
  rcases hdel : env.infra.delete with e3 | u3 <;>
  rcases hdpo : env.mgmt.delete_post with e4 | u4 <;>
    simp [delete_vnf, delete_vnf_handler, _delete_vnf_pre, _delete_vnf_post,
          get_vim, _instance_id, hvim, hdp, hcall, hinst, hdel, hdpo,
          St.start, St.log]

/-- C9, witness: a run that does issue the infra delete, with the
unsubscription demonstrably before it. -/
theorem C9_unsubscribe_before_infra_delete_witness :
    Event.unsubscribeMonitor
      ∈ ((delete_vnf envAllOk (St.start recActive) "vnf-1").1.trace.takeWhile
          (fun e => decide (e ≠ Event.infraDelete))) :=
  C9_unsubscribe_before_infra_delete envAllOk recActive "vnf-1" (by decide)

/-- Helper: with filters None, a walk that reaches any policy entry raises
at the first dereference of the filters value. -/
theorem scanPolicies_none_raises (vnf : VnfRecord)
    (ds : List (List (String × PolicyDef))) (h : ∃ d ∈ ds, d ≠ []) :
    scanPolicies vnf none ds
      = .error (.AttributeError "NoneType object has no attribute get") := by
  induction ds with
  | nil => simp at h
  | cons d rest ih =>
    cases d with
    | nil =>
      obtain ⟨d2, hd2, hne⟩ := h
      rcases List.mem_cons.mp hd2 with rfl | hmem
      · exact absurd rfl hne
      · simp [scanPolicies, scanPolicyDict, ih ⟨d2, hmem, hne⟩]
    | cons x xs => simp [scanPolicies, scanPolicyDict]

/-- Helper: with filters None and only empty policy dicts, the loop body
never runs and the walk returns the empty list. -/
theorem scanPolicies_none_empty (vnf : VnfRecord)
    (ds : List (List (String × PolicyDef))) (h : ∀ d ∈ ds, d = []) :
    scanPolicies vnf none ds = .ok [] := by
  induction ds with
  | nil => rfl
  | cons d rest ih =>
    have hd := h d (List.mem_cons_self _ _)
    subst hd
    simp [scanPolicies, scanPolicyDict,
          ih (fun d2 hd2 => h d2 (List.mem_cons_of_mem _ hd2))]

/-- C10, amended.  Calling get_vnf_policies without a filters argument
raises (the filters value is dereferenced in the per-policy loop body)
whenever the TOSCA descriptor declares at least one policy entry — so the
full policy list is never returned without filters; but when the template
declares no policy entry, or is not a TOSCA template, the loop body never
runs and the call returns the empty list normally even without filters. -/
theorem C10_amended :
    (∀ (st : St) (r : VnfRecord) (vid : String),
      st.db = some r → r.vnfd.tosca = true →
      (∃ d ∈ r.vnfd.policies, d ≠ []) →
      get_vnf_policies st vid none
        = .error (.AttributeError "NoneType object has no attribute get"))
    ∧ (∀ (st : St) (r : VnfRecord) (vid : String),
      st.db = some r →
      (r.vnfd.tosca = false ∨ ∀ d ∈ r.vnfd.policies, d = []) →
      get_vnf_policies st vid none = .ok []) := by
  refine ⟨?_, ?_⟩
  · intro st r vid hdb htosca hsome
    simp [get_vnf_policies, hdb, htosca,
          scanPolicies_none_raises r r.vnfd.policies hsome]
  · intro st r vid hdb hcase
    rcases hcase with htosca | hempty
    · simp [get_vnf_policies, hdb, htosca]
    · cases htosca : r.vnfd.tosca <;>
        simp [get_vnf_policies, hdb, htosca,
              scanPolicies_none_empty r r.vnfd.policies hempty]

/-- C10, witness: both halves of the amended claim at concrete records. -/
theorem C10_amended_witness :
    get_vnf_policies (St.start recActive) "vnf-1" none
      = .error (.AttributeError "NoneType object has no attribute get")
    ∧ get_vnf_policies (St.start recNoPolicies) "vnf-2" none = .ok [] :=
  ⟨C10_amended.1 (St.start recActive) recActive "vnf-1" rfl rfl
      ⟨[("SP1", { ptype := "capacity-scaling", properties := "p" })],
        by decide, by decide⟩,
   C10_amended.2 (St.start recNoPolicies) recNoPolicies "vnf-2" rfl
      (Or.inr (by decide))⟩
